import Mathlib

/-!
Shallow embedding of the `alx-backend-user-data` repository core:
the file-backed object store (`models/base.py`), the `User` entity
(`models/user.py` in both `0x01-Basic_authentication` and
`0x02-Session_authentication`), the users view handlers
(`api/v1/views/users.py`), and the request gate (`api/v1/app.py`).

Python values that can appear as entity attributes or JSON payloads are
modelled by `JVal`; a `datetime` object is modelled by `DT` (a count of
whole seconds plus a microsecond part, since the serialization format
`%Y-%m-%dT%H:%M:%S` keeps exactly the seconds).  A string produced by
`strftime` with that fixed format is in bijection with the seconds value
it encodes, so it is modelled by the constructor `JVal.jtime` carrying
that seconds value.  SHA-256 hex-digest hashing
(`hashlib.sha256(pwd.encode()).hexdigest().lower()`) is an external
primitive and is modelled by an explicit function parameter
`H : String → String`.
-/

/-- A Python/JSON value as it appears in entity attributes and request
bodies: `None`, booleans, integers, strings, and fixed-format timestamp
strings (`jtime s` stands for the `%Y-%m-%dT%H:%M:%S` rendering of the
instant `s` seconds from the epoch, which that rendering encodes
exactly). -/
inductive JVal where
  | jnull
  | jbool (b : Bool)
  | jnum (n : Int)
  | jstr (s : String)
  | jtime (sec : Nat)
deriving DecidableEq, Repr

/-- A `datetime.datetime` value: whole seconds plus microseconds. -/
structure DT where
  sec : Nat
  micro : Nat
deriving DecidableEq, Repr

/-- Chronological order on `datetime` values. -/
def DT.le (a b : DT) : Prop :=
  a.sec * 1000000 + a.micro ≤ b.sec * 1000000 + b.micro

instance (a b : DT) : Decidable (DT.le a b) :=
  inferInstanceAs (Decidable (a.sec * 1000000 + a.micro ≤ b.sec * 1000000 + b.micro))

/-- Python truthiness (`bool(x)`) of a `JVal`: `None`, `False`, `0` and
`""` are falsy; a fixed-format timestamp string is never empty, hence
always truthy. -/
def pyTruthy : JVal → Bool
  | .jnull => false
  | .jbool b => b
  | .jnum n => n != 0
  | .jstr s => !s.isEmpty
  | .jtime _ => true

/-- The model's rendering of the fixed-format timestamp string encoded by
`jtime`; only its injectivity in `sec` matters to the development. -/
def fmtTime (sec : Nat) : String :=
  toString sec

/-- Python `str(x)` of a `JVal`, as used by f-string interpolation. -/
def pyStr : JVal → String
  | .jnull => "None"
  | .jbool true => "True"
  | .jbool false => "False"
  | .jnum n => toString n
  | .jstr s => s
  | .jtime s => fmtTime s

/-- `isinstance(x, str)` together with the string content: `jstr` and
`jtime` (the latter being a timestamp *string*) are the string values. -/
def strVal : JVal → Option String
  | .jstr s => some s
  | .jtime s => some (fmtTime s)
  | _ => none

/-- Python `kwargs.get(k, dflt)` over a keyword-argument map modelled as
an association list: the stored value when the key is present (even if
that value is `None`), the default otherwise. -/
def pyGet (kw : List (String × JVal)) (k : String) (dflt : JVal) : JVal :=
  (kw.lookup k).getD dflt

/-- The `User` entity (`models/user.py`): the `Base` fields `id`,
`created_at`, `updated_at` set by `Base.__init__`, then `email`,
`_password`, `first_name`, `last_name` set by `User.__init__`, in that
`__dict__` insertion order. -/
structure User where
  id : JVal
  created_at : DT
  updated_at : DT
  email : JVal
  _password : JVal
  first_name : JVal
  last_name : JVal
deriving DecidableEq, Repr

/-- `User.display_name` of `0x01-Basic_authentication/models/user.py`:
`if self.first_name and self.last_name: return f"{self.first_name} {self.last_name}"`
then `return (self.first_name or self.last_name or self.email or "")`
(Python `or` returns its first truthy operand, else the last operand). -/
def User.display_name_v01 (u : User) : JVal :=
  if pyTruthy u.first_name && pyTruthy u.last_name then
    .jstr (pyStr u.first_name ++ " " ++ pyStr u.last_name)
  else if pyTruthy u.first_name then u.first_name
  else if pyTruthy u.last_name then u.last_name
  else if pyTruthy u.email then u.email
  else .jstr ""

/-- `User.display_name` of `0x02-Session_authentication/models/user.py`:
four guarded returns (email alone; first name without last; last name
without first; first and last together) and a final `return ""`. -/
def User.display_name_v02 (u : User) : JVal :=
  if pyTruthy u.email && !pyTruthy u.first_name && !pyTruthy u.last_name then
    u.email
  else if pyTruthy u.first_name && !pyTruthy u.last_name then u.first_name
  else if pyTruthy u.last_name && !pyTruthy u.first_name then u.last_name
  else if pyTruthy u.first_name && pyTruthy u.last_name then
    .jstr (pyStr u.first_name ++ " " ++ pyStr u.last_name)
  else .jstr ""

/-- The two `display_name` implementations agree on every user: case
analysis on the truthiness of `first_name`, `last_name`, `email`. -/
lemma display_name_agree_aux (u : User) :
    u.display_name_v01 = u.display_name_v02 := by
  unfold User.display_name_v01 User.display_name_v02
  cases hf : pyTruthy u.first_name <;>
    cases hl : pyTruthy u.last_name <;>
      cases he : pyTruthy u.email <;> simp

/-- C2: the claim asserts the two `display_name` implementations
disagree on some combination of `first_name`, `last_name`, `email`; in
fact they agree everywhere, so the claimed disagreement witness does not
exist. -/
theorem claim_C2_counterexample :
    ¬ ∃ u : User, u.display_name_v01 ≠ u.display_name_v02 :=
  fun h => h.elim (fun u hne => hne (display_name_agree_aux u))

/-- C2 (amended): the two `User.display_name` implementations in this
repository are extensionally equal — for every combination of
`first_name`, `last_name` and `email` they return the same display name;
the swapped branch order does not change behaviour because each earlier
branch of the `0x02` version excludes the cases of the later ones. -/
theorem claim_C2_display_name_agree (u : User) :
    u.display_name_v01 = u.display_name_v02 :=
  display_name_agree_aux u

/-- The `User.password` setter (identical in both
`0x01-Basic_authentication` and `0x02-Session_authentication`
`models/user.py`): a string value is stored as its SHA-256 lowercase hex
digest (the digest `H`); any non-string value clears the stored hash to
`None` — the `else` branch, so the assignment never raises. -/
def User.password_setter (H : String → String) (u : User) (pwd : JVal) : User :=
  match strVal pwd with
  | some s => { u with _password := .jstr (H s) }
  | none => { u with _password := .jnull }

/-- `User.is_valid_password` (identical in both `models/user.py` files):
`False` when the candidate is not a string or the stored hash is `None`;
otherwise the candidate's digest is compared to the stored hash with
plain `==`. -/
def User.is_valid_password (H : String → String) (u : User) (pwd : JVal) : Bool :=
  match strVal pwd with
  | none => false
  | some s =>
    if u._password = .jnull then false
    else .jstr (H s) = u._password

/-- C4: after assigning a string `P` to the password property, the
stored hash is `H P`, so `is_valid_password P` recomputes the same
digest and returns true, while any `Pp` whose digest differs from that
of `P` fails the digest-equality check and returns false. -/
theorem claim_C4_password_roundtrip (H : String → String) (u : User) (P Pp : String) :
    (u.password_setter H (.jstr P)).is_valid_password H (.jstr P) = true
    ∧ (H Pp ≠ H P →
        (u.password_setter H (.jstr P)).is_valid_password H (.jstr Pp) = false) := by
  constructor
  · simp [User.password_setter, User.is_valid_password, strVal]
  · intro hne
    simp [User.password_setter, User.is_valid_password, strVal, hne]

/-- A concrete user value used by witnesses. -/
def demoUser : User :=
  { id := .jstr "u1", created_at := ⟨10, 500⟩, updated_at := ⟨20, 700⟩,
    email := .jstr "a@b.com", _password := .jnull,
    first_name := .jnull, last_name := .jnull }

/-- C4 witness: with the identity digest, setting password `"secret"`
makes `"wrong"` invalid. -/
theorem claim_C4_password_roundtrip_witness :
    (demoUser.password_setter id (.jstr "secret")).is_valid_password id (.jstr "wrong") = false :=
  (claim_C4_password_roundtrip id demoUser "secret" "wrong").2 (by decide)

/-- C8: assigning a non-string value to the password property stores
`None` (the setter's `else` branch — a total function, no exception),
and afterwards `is_valid_password` is false for every candidate, string
or not, because the stored hash is `None`. -/
theorem claim_C8_nonstring_password_clears (H : String → String) (u : User) (v : JVal)
    (hv : strVal v = none) :
    (u.password_setter H v)._password = .jnull
    ∧ ∀ c : JVal, (u.password_setter H v).is_valid_password H c = false := by
  constructor
  · simp [User.password_setter, hv]
  · intro c
    cases hc : strVal c <;>
      simp [User.password_setter, User.is_valid_password, hv, hc]

/-- C8 witness: assigning the integer `12` clears the hash and makes the
candidate `"secret"` invalid. -/
theorem claim_C8_nonstring_password_clears_witness :
    (demoUser.password_setter id (.jnum 12))._password = .jnull
    ∧ (demoUser.password_setter id (.jnum 12)).is_valid_password id (.jstr "secret") = false :=
  ⟨(claim_C8_nonstring_password_clears id demoUser (.jnum 12) (by decide)).1,
   (claim_C8_nonstring_password_clears id demoUser (.jnum 12) (by decide)).2 (.jstr "secret")⟩

/-- `Base._parse_datetime` (`models/base.py`): a truthy value is parsed
with `strptime(date_str, "%Y-%m-%DT%H:%M:%S")` — success exactly on a
fixed-format timestamp string (`jtime`), giving whole seconds and zero
microseconds; any other truthy value raises a parse error (propagated);
a falsy value (absent key, `None`, `""`) yields `datetime.utcnow()`,
i.e. the supplied current time. -/
def parse_datetime (now : DT) (v : JVal) : Except String DT :=
  if pyTruthy v then
    match v with
    | .jtime s => .ok ⟨s, 0⟩
    | _ => .error "time data does not match format"
  else .ok now

/-- `User.__init__` (via `Base.__init__`): `id` is `kwargs.get('id')`
with a fresh UUID string as default; `created_at`/`updated_at` are
parsed from the kwargs (current time when absent); then
`email`, `_password`, `first_name`, `last_name` are `kwargs.get(...)`
with default `None`.  Note the constructor reads `_password`, not
`password`. -/
def User.init (fresh : String) (now : DT) (kwargs : List (String × JVal)) :
    Except String User := do
  let created ← parse_datetime now (pyGet kwargs "created_at" .jnull)
  let updated ← parse_datetime now (pyGet kwargs "updated_at" .jnull)
  .ok { id := pyGet kwargs "id" (.jstr fresh),
        created_at := created,
        updated_at := updated,
        email := pyGet kwargs "email" .jnull,
        _password := pyGet kwargs "_password" .jnull,
        first_name := pyGet kwargs "first_name" .jnull,
        last_name := pyGet kwargs "last_name" .jnull }

/-- An attribute value held in an object's `__dict__`: either a plain
value or a `datetime` object. -/
inductive PyVal where
  | v (j : JVal)
  | dt (d : DT)
deriving DecidableEq, Repr

/-- A `User`'s `__dict__` as an ordered association list (insertion
order: the three `Base` fields, then the four `User` fields). -/
def userDict (u : User) : List (String × PyVal) :=
  [("id", .v u.id),
   ("created_at", .dt u.created_at),
   ("updated_at", .dt u.updated_at),
   ("email", .v u.email),
   ("_password", .v u._password),
   ("first_name", .v u.first_name),
   ("last_name", .v u.last_name)]

/-- `strftime` applied by `Base.to_json`: a `datetime` attribute is
rendered as its fixed-format string (dropping microseconds); any other
attribute passes through unchanged. -/
def pyvalToJson : PyVal → JVal
  | .v j => j
  | .dt d => .jtime d.sec

/-- Python `key.startswith('_')`: whether the first character of the
attribute name is an underscore. -/
def pyStartsUnderscore (s : String) : Bool :=
  match s.data with
  | [] => false
  | c :: _ => c = '_'

/-- `Base.to_json` specialised to `User`: iterate `__dict__`, skip keys
starting with `_` unless `for_serialization`, and render `datetime`
values with `strftime("%Y-%m-%dT%H:%M:%S")`. -/
def User.to_json (u : User) (for_serialization : Bool) : List (String × JVal) :=
  ((userDict u).filter
      (fun p => for_serialization || !(pyStartsUnderscore p.1))).map
    (fun p => (p.1, pyvalToJson p.2))

/-- `Base.save_to_file` specialised to `User`: the written JSON file
maps each stored id to `obj.to_json(True)`.  (JSON object keys are
strings; this model keeps the store keys unchanged, which is exact for
the string keys the application generates.) -/
def User.save_to_file (data : List (JVal × User)) : List (JVal × List (String × JVal)) :=
  data.map (fun p => (p.1, p.2.to_json true))

/-- `Base.load_from_file` specialised to `User`: the in-memory map is
replaced by `cls(**obj_json)` for each record of the file, keyed by the
file's keys; a malformed timestamp raises out of the loop. -/
def User.load_from_file (fresh : String) (now : DT) :
    List (JVal × List (String × JVal)) → Except String (List (JVal × User))
  | [] => .ok []
  | (k, kw) :: rest => do
    let u ← User.init fresh now kw
    let tail ← User.load_from_file fresh now rest
    .ok ((k, u) :: tail)

/-- Truncation of a `datetime` to whole seconds — the precision that the
fixed serialization format preserves. -/
def DT.truncate (d : DT) : DT :=
  ⟨d.sec, 0⟩

/-- Reconstructing a `User` from its own serialized form gives back the
same attributes, timestamps truncated to the second. -/
lemma init_to_json (fresh : String) (now : DT) (u : User) :
    User.init fresh now (u.to_json true) =
      .ok { u with created_at := u.created_at.truncate,
                   updated_at := u.updated_at.truncate } := by
  rfl

/-- C5: saving the whole in-memory `User` store to file and reloading it
reproduces the same keys and, entry by entry, the same user attributes —
`id`, `email`, `_password`, `first_name`, `last_name` exactly, and
`created_at`/`updated_at` truncated to whole seconds (the precision of
the file format).  The hypothesis restricts store keys to strings, the
only keys a JSON object file can carry. -/
theorem claim_C5_store_roundtrip (fresh : String) (now : DT) (data : List (JVal × User))
    (hkeys : ∀ p ∈ data, ∃ s, p.1 = JVal.jstr s) :
    User.load_from_file fresh now (User.save_to_file data) =
      .ok (data.map (fun p =>
        (p.1, { p.2 with created_at := p.2.created_at.truncate,
                         updated_at := p.2.updated_at.truncate }))) := by
  clear hkeys
  induction data with
  | nil => rfl
  | cons hd tl ih =>
    simp [User.save_to_file] at ih
    simp [User.save_to_file, User.load_from_file, init_to_json, ih]
    rfl

/-- A demonstration store of one user under a string key. -/
def demoData : List (JVal × User) :=
  [(.jstr "u1", demoUser)]

/-- C5 witness: the round trip on the one-user demonstration store. -/
theorem claim_C5_store_roundtrip_witness :
    User.load_from_file "f" ⟨5, 0⟩ (User.save_to_file demoData) =
      .ok (demoData.map (fun p =>
        (p.1, { p.2 with created_at := p.2.created_at.truncate,
                         updated_at := p.2.updated_at.truncate }))) :=
  claim_C5_store_roundtrip "f" ⟨5, 0⟩ demoData
    (by
      intro p hp
      simp only [demoData, List.mem_singleton] at hp
      exact ⟨"u1", by rw [hp]⟩)

/-- `create_user` (`api/v1/views/users.py`, POST `/users`): reject a
falsy body, a falsy `email`, a falsy `password`; otherwise build
`User(email=.., password=.., first_name=.., last_name=..)` — passing the
plaintext under the keyword `password`, which `User.__init__` never
reads (it reads `_password`) — then save it.  Exceptions are returned as
400 error strings. -/
def create_user (fresh : String) (now : DT) (rj : List (String × JVal)) :
    Except String User :=
  if rj.isEmpty then .error "Wrong format"
  else if !pyTruthy (pyGet rj "email" .jnull) then .error "email missing"
  else if !pyTruthy (pyGet rj "password" .jnull) then .error "password missing"
  else
    User.init fresh now
      [("email", pyGet rj "email" .jnull),
       ("password", pyGet rj "password" .jnull),
       ("first_name", pyGet rj "first_name" .jnull),
       ("last_name", pyGet rj "last_name" .jnull)]

/-- C1 (code bug): creating a user through the view with
`email="a@b.com"`, `password="secret"` leaves the stored hash `None` —
the constructor ignores the `password` keyword — so
`is_valid_password("secret")` is `false` for every digest function,
contradicting the documented scenario in which it is `true`. -/
theorem claim_C1_create_user_drops_password :
    ∀ H : String → String,
      (create_user "u1" ⟨0, 0⟩
          [("email", .jstr "a@b.com"), ("password", .jstr "secret")]).map
        (fun u => (u._password, u.is_valid_password H (.jstr "secret")))
      = .ok (.jnull, false) := by
  intro H
  rfl

/-- `update_user` (`api/v1/views/users.py`, PUT `/users/:id`), after the
user has been found: reject a falsy body with 400; otherwise overwrite
`first_name` (resp. `last_name`) with the body's value exactly when the
key is present in the body (a JSON `null` counts as present), then
`user.save()`, which refreshes `updated_at` to the current time. -/
def update_user (now : DT) (u : User) (rj : List (String × JVal)) :
    Except String User :=
  if rj.isEmpty then .error "Wrong format"
  else
    let u1 := match rj.lookup "first_name" with
      | some v => { u with first_name := v }
      | none => u
    let u2 := match rj.lookup "last_name" with
      | some v => { u1 with last_name := v }
      | none => u1
    .ok { u2 with updated_at := now }

/-- C10: for a found user and a non-empty JSON body, the update succeeds
and touches only `first_name`, `last_name` and `updated_at`: `id`,
`email`, `created_at` and the stored `_password` hash are unchanged,
`updated_at` becomes the save time, and each name field takes the body's
value when its key is present and keeps its previous value otherwise. -/
theorem claim_C10_update_user_frame (now : DT) (u : User) (rj : List (String × JVal))
    (h : rj ≠ []) :
    ∃ u', update_user now u rj = .ok u'
      ∧ u'.id = u.id
      ∧ u'.email = u.email
      ∧ u'.created_at = u.created_at
      ∧ u'._password = u._password
      ∧ u'.updated_at = now
      ∧ u'.first_name = (rj.lookup "first_name").getD u.first_name
      ∧ u'.last_name = (rj.lookup "last_name").getD u.last_name := by
  have h' : rj.isEmpty = false := by
    cases rj with
    | nil => cases h rfl
    | cons a t => rfl
  cases hf : rj.lookup "first_name" with
  | none =>
    cases hl : rj.lookup "last_name" with
    | none =>
      exact ⟨{ u with updated_at := now },
        by simp [update_user, h', hf, hl], rfl, rfl, rfl, rfl, rfl,
        by simp [hf], by simp [hl]⟩
    | some b =>
      exact ⟨{ u with last_name := b, updated_at := now },
        by simp [update_user, h', hf, hl], rfl, rfl, rfl, rfl, rfl,
        by simp [hf], by simp [hl]⟩
  | some a =>
    cases hl : rj.lookup "last_name" with
    | none =>
      exact ⟨{ u with first_name := a, updated_at := now },
        by simp [update_user, h', hf, hl], rfl, rfl, rfl, rfl, rfl,
        by simp [hf], by simp [hl]⟩
    | some b =>
      exact ⟨{ u with first_name := a, last_name := b, updated_at := now },
        by simp [update_user, h', hf, hl], rfl, rfl, rfl, rfl, rfl,
        by simp [hf], by simp [hl]⟩

/-- C10 witness: updating the demonstration user with a body that sets
only `first_name` keeps everything else and refreshes `updated_at`. -/
theorem claim_C10_update_user_frame_witness :
    ∃ u', update_user ⟨30, 0⟩ demoUser [("first_name", JVal.jstr "Alice")] = .ok u'
      ∧ u'.id = demoUser.id
      ∧ u'.email = demoUser.email
      ∧ u'.created_at = demoUser.created_at
      ∧ u'._password = demoUser._password
      ∧ u'.updated_at = ⟨30, 0⟩
      ∧ u'.first_name = ([("first_name", JVal.jstr "Alice")].lookup "first_name").getD demoUser.first_name
      ∧ u'.last_name = ([("first_name", JVal.jstr "Alice")].lookup "last_name").getD demoUser.last_name :=
  claim_C10_update_user_frame ⟨30, 0⟩ demoUser [("first_name", JVal.jstr "Alice")]
    (by decide)

/-- `Base.get` specialised to `User`: `DATA[cls].get(id)`. -/
def User.get (data : List (JVal × User)) (i : JVal) : Option User :=
  data.lookup i

/-- The attributes of a `User` object, the keys Python `getattr`
resolves on it. -/
inductive UserAttr where
  | id
  | created_at
  | updated_at
  | email
  | password_hash
  | first_name
  | last_name
deriving DecidableEq, Repr

/-- Python `getattr(user, k)` for an attribute name `k` of the class
(`password_hash` stands for the attribute named `_password`; `getattr`
on a name outside this enumeration raises and is outside the claims'
scope). -/
def User.getattr (u : User) : UserAttr → PyVal
  | .id => .v u.id
  | .created_at => .dt u.created_at
  | .updated_at => .dt u.updated_at
  | .email => .v u.email
  | .password_hash => .v u._password
  | .first_name => .v u.first_name
  | .last_name => .v u.last_name

/-- `Base.search` specialised to `User`:
`list(filter(lambda o: all(getattr(o, k) == v for k, v in attributes.items()), DATA[cls].values()))`. -/
def User.search (data : List (JVal × User)) (attributes : List (UserAttr × PyVal)) :
    List User :=
  (data.map Prod.snd).filter
    (fun u => attributes.all (fun p => decide (u.getattr p.1 = p.2)))

/-- `Base.all` specialised to `User`: `cls.search()` with the default
empty attribute map. -/
def User.all (data : List (JVal × User)) : List User :=
  User.search data []

/-- C6: a user is in `search(A)` exactly when it is among the stored
values and every attribute named in `A` compares equal to the given
value; and `search({})` returns all stored instances. -/
theorem claim_C6_search_exact (data : List (JVal × User))
    (A : List (UserAttr × PyVal)) (u : User) :
    (u ∈ User.search data A ↔
      u ∈ data.map Prod.snd ∧ ∀ p ∈ A, u.getattr p.1 = p.2)
    ∧ User.search data [] = data.map Prod.snd := by
  constructor
  · simp [User.search, List.mem_filter, List.all_eq_true]
  · simp [User.search]

/-- C6 witness: on the demonstration store, searching for the matching
email returns the demonstration user, by the membership
characterisation. -/
theorem claim_C6_search_exact_witness :
    demoUser ∈ User.search demoData [(UserAttr.email, .v (.jstr "a@b.com"))] :=
  (claim_C6_search_exact demoData [(UserAttr.email, .v (.jstr "a@b.com"))] demoUser).1.mpr
    (by
      constructor
      · simp [demoData]
      · intro p hp
        simp only [List.mem_singleton] at hp
        rw [hp]
        rfl)

/-- `view_all_users` (`api/v1/views/users.py`, GET `/users`):
`[user.to_json() for user in User.all()]`, with `to_json`'s
`for_serialization` defaulting to `False`. -/
def view_all_users (data : List (JVal × User)) : List (List (String × JVal)) :=
  (User.all data).map (fun u => u.to_json false)

/-- `view_one_user` (`api/v1/views/users.py`, GET `/users/:id`): the
literal id `me` answers with the request's current user (404 when
there is none); otherwise the user is fetched by id (404 on a missing
id or user), and the response is `user.to_json()`. -/
def view_one_user (data : List (JVal × User)) (current_user : Option User)
    (user_id : Option String) : Except Nat (List (String × JVal)) :=
  if user_id = some "me" then
    match current_user with
    | none => .error 404
    | some cu => .ok (cu.to_json false)
  else
    match user_id with
    | none => .error 404
    | some uid =>
      match User.get data (.jstr uid) with
      | none => .error 404
      | some u => .ok (u.to_json false)

/-- Without `for_serialization`, `to_json` keeps exactly the keys not
starting with an underscore, in `__dict__` order. -/
lemma to_json_keys (u : User) :
    (u.to_json false).map Prod.fst =
      ["id", "created_at", "updated_at", "email", "first_name", "last_name"] :=
  rfl

/-- C9: `to_json` without the serialization flag drops every
underscore-prefixed attribute, so no key of any JSON object produced by
GET `/users` or GET `/users/:id` starts with `_`; in particular
`_password` never appears. -/
theorem claim_C9_no_password_leak (data : List (JVal × User))
    (current_user : Option User) (user_id : Option String) :
    (∀ j ∈ view_all_users data, ∀ k ∈ j.map Prod.fst, ¬ pyStartsUnderscore k)
    ∧ (∀ j, view_one_user data current_user user_id = .ok j →
        "_password" ∉ j.map Prod.fst) := by
  have hkeys : ∀ u : User, ∀ k ∈ (u.to_json false).map Prod.fst, ¬ pyStartsUnderscore k := by
    intro u k hk
    rw [to_json_keys] at hk
    fin_cases hk <;> decide
  constructor
  · intro j hj
    simp only [view_all_users, List.mem_map] at hj
    obtain ⟨u, _, rfl⟩ := hj
    exact hkeys u
  · intro j hj
    have hx : ∃ u : User, j = u.to_json false := by
      cases user_id with
      | none => simp [view_one_user] at hj
      | some uid =>
        by_cases hm : uid = "me"
        · subst hm
          cases current_user with
          | none => simp [view_one_user] at hj
          | some cu =>
            simp [view_one_user] at hj
            exact ⟨cu, hj.symm⟩
        · cases hg : User.get data (.jstr uid) with
          | none => simp [view_one_user, hm, hg] at hj
          | some u =>
            simp [view_one_user, hm, hg] at hj
            exact ⟨u, hj.symm⟩
    obtain ⟨u, rfl⟩ := hx
    intro hmem
    exact hkeys u "_password" hmem (by decide)

/-- C9 witness: fetching the demonstration user through GET `/users/:id`
yields a JSON object without the `_password` key. -/
theorem claim_C9_no_password_leak_witness :
    "_password" ∉ (demoUser.to_json false).map Prod.fst :=
  (claim_C9_no_password_leak demoData none (some "u1")).2
    (demoUser.to_json false) (by rfl)

/-- Python `dict` insert for the in-memory store `DATA[cls][id] = obj`:
overwrite in place when the key exists, append otherwise. -/
def dataInsert (k : JVal) (u : User) : List (JVal × User) → List (JVal × User)
  | [] => [(k, u)]
  | (k', u') :: t => if k' = k then (k, u) :: t else (k', u') :: dataInsert k u t

/-- `Base.save` specialised to `User`: refresh `updated_at` to the
current time, store the object under its (untouched) `id`, and rewrite
the class file (`save_to_file`, whose content is a pure function of the
returned store). -/
def User.save (now : DT) (u : User) (data : List (JVal × User)) :
    User × List (JVal × User) :=
  let u' := { u with updated_at := now }
  (u', dataInsert u'.id u' data)

/-- A sequence of `save` calls at successive clock readings, returning
the final object and store. -/
def User.saveSeq : List DT → User → List (JVal × User) → User × List (JVal × User)
  | [], u, data => (u, data)
  | t :: ts, u, data =>
    let p := User.save t u data
    User.saveSeq ts p.1 p.2

/-- The `updated_at` values observed after each save of a sequence. -/
def saveTrace : List DT → User → List (JVal × User) → List DT
  | [], _, _ => []
  | t :: ts, u, data =>
    let p := User.save t u data
    p.1.updated_at :: saveTrace ts p.1 p.2

/-- Each save stamps `updated_at` with exactly the clock reading passed
to it, so the observed trace is the clock trace itself. -/
lemma saveTrace_eq_times (ts : List DT) (u : User) (data : List (JVal × User)) :
    saveTrace ts u data = ts := by
  induction ts generalizing u data with
  | nil => rfl
  | cons t ts ih => simp [saveTrace, User.save, ih]

/-- A save sequence never touches `id`. -/
lemma saveSeq_id (ts : List DT) (u : User) (data : List (JVal × User)) :
    (User.saveSeq ts u data).1.id = u.id := by
  induction ts generalizing u data with
  | nil => rfl
  | cons t ts ih => simp [User.saveSeq, User.save, ih]

/-- C7: a save leaves `id` unchanged and stamps `updated_at` with the
current time; across any sequence of saves the `id` stays the one
assigned at creation, and the successive `updated_at` values are exactly
the clock readings, hence nondecreasing whenever the clock is. -/
theorem claim_C7_save_invariants (now : DT) (ts : List DT) (u : User)
    (data : List (JVal × User)) :
    (User.save now u data).1.id = u.id
    ∧ (User.save now u data).1.updated_at = now
    ∧ (User.saveSeq ts u data).1.id = u.id
    ∧ (List.Chain' DT.le (u.updated_at :: ts) →
        List.Chain' DT.le (u.updated_at :: saveTrace ts u data)) := by
  refine ⟨rfl, rfl, saveSeq_id ts u data, ?_⟩
  intro hc
  rw [saveTrace_eq_times]
  exact hc

/-- C7 witness: three saves of the demonstration user at increasing
clock readings keep its id and produce a nondecreasing `updated_at`
trace. -/
theorem claim_C7_save_invariants_witness :
    (User.saveSeq [⟨21, 0⟩, ⟨22, 0⟩, ⟨22, 5⟩] demoUser []).1.id = demoUser.id
    ∧ List.Chain' DT.le
        (demoUser.updated_at :: saveTrace [⟨21, 0⟩, ⟨22, 0⟩, ⟨22, 5⟩] demoUser []) :=
  ⟨(claim_C7_save_invariants ⟨21, 0⟩ [⟨21, 0⟩, ⟨22, 0⟩, ⟨22, 5⟩] demoUser []).2.2.1,
   (claim_C7_save_invariants ⟨21, 0⟩ [⟨21, 0⟩, ⟨22, 0⟩, ⟨22, 5⟩] demoUser []).2.2.2
     (by
       simp only [List.chain'_cons, List.chain'_singleton, and_true]
       exact ⟨by decide, by decide, by decide⟩)⟩

/-- Python truthiness of what an accessor such as
`auth.authorization_header(request)` or `auth.session_cookie(request)`
returns: `None` (absent) and the empty string are falsy; the `if not
...` checks of `handle_auth` pass exactly on a truthy (non-empty)
value. -/
def pyTruthyStrOpt : Option String → Bool
  | none => false
  | some s => !s.isEmpty

/-- An incoming HTTP request as the gate sees it. -/
structure GateRequest where
  path : String
  headers : List (String × String)
  cookies : List (String × String)

/-- An auth strategy as `handle_auth` consumes it — the polymorphic
interface of the `Auth` class hierarchy (`api/v1/auth/`), taken
abstractly: path exclusion, the two credential accessors, and identity
resolution. -/
structure AuthStrategy where
  require_auth : String → List String → Bool
  authorization_header : GateRequest → Option String
  session_cookie : GateRequest → Option String
  current_user : GateRequest → Option User

/-- The outcome of the request gate: proceed to the route handler,
abort 401, or abort 403. -/
inductive GateResult where
  | allowed
  | unauthorized
  | forbidden
deriving DecidableEq, Repr

/-- The excluded-path list hard-coded in `handle_auth`
(`api/v1/app.py`). -/
def excluded_list : List String :=
  ["/api/v1/status/",
   "/api/v1/unauthorized/",
   "/api/v1/forbidden/",
   "/api/v1/auth_session/login/"]

/-- `handle_auth` (`api/v1/app.py`, `before_request`): allow when no
strategy is configured; allow when the strategy does not require auth
for the path against `excluded_list`; abort 401 when neither the
Authorization header nor the session cookie is truthy; otherwise
resolve `current_user` and abort 403 when none is resolved (a resolved
`User` object is always truthy). -/
def handle_auth (auth : Option AuthStrategy) (r : GateRequest) : GateResult :=
  match auth with
  | none => .allowed
  | some a =>
    if !(a.require_auth r.path excluded_list) then .allowed
    else if !(pyTruthyStrOpt (a.authorization_header r))
            && !(pyTruthyStrOpt (a.session_cookie r)) then .unauthorized
    else
      match a.current_user r with
      | none => .forbidden
      | some _ => .allowed

/-- C3: with a strategy configured and a path requiring auth, the gate
answers 401 exactly when neither credential accessor yields a (truthy)
value; when a credential is presented, it answers 403 exactly when the
strategy resolves no identity, and allows otherwise; with no strategy
configured, or on a path not requiring auth (an excluded path), it
always allows. -/
theorem claim_C3_request_gate (a : AuthStrategy) (r : GateRequest) :
    handle_auth none r = .allowed
    ∧ (a.require_auth r.path excluded_list = false →
        handle_auth (some a) r = .allowed)
    ∧ (a.require_auth r.path excluded_list = true →
        (handle_auth (some a) r = .unauthorized ↔
          pyTruthyStrOpt (a.authorization_header r) = false
          ∧ pyTruthyStrOpt (a.session_cookie r) = false)
        ∧ ((pyTruthyStrOpt (a.authorization_header r) = true
              ∨ pyTruthyStrOpt (a.session_cookie r) = true) →
            (handle_auth (some a) r = .forbidden ↔ a.current_user r = none)
            ∧ (a.current_user r ≠ none → handle_auth (some a) r = .allowed))) := by
  refine ⟨rfl, ?_, ?_⟩
  · intro hreq
    simp [handle_auth, hreq]
  · intro hreq
    constructor
    · cases hh : pyTruthyStrOpt (a.authorization_header r) <;>
        cases hs : pyTruthyStrOpt (a.session_cookie r) <;>
          cases hu : a.current_user r <;>
            simp [handle_auth, hreq, hh, hs, hu]
    · intro hcred
      have hor : (pyTruthyStrOpt (a.authorization_header r)
          || pyTruthyStrOpt (a.session_cookie r)) = true := by
        cases hcred with
        | inl h => simp [h]
        | inr h => simp [h]
      cases hh : pyTruthyStrOpt (a.authorization_header r) <;>
        cases hs : pyTruthyStrOpt (a.session_cookie r) <;>
          cases hu : a.current_user r <;>
            simp_all [handle_auth, hreq]

/-- A concrete strategy whose accessors find nothing, used by the C3
witness. -/
def emptyStrategy : AuthStrategy :=
  { require_auth := fun _ _ => true,
    authorization_header := fun _ => none,
    session_cookie := fun _ => none,
    current_user := fun _ => none }

/-- A concrete request to a guarded path, used by the C3 witness. -/
def bareRequest : GateRequest :=
  { path := "/api/v1/users", headers := [], cookies := [] }

/-- C3 witness: with a strategy configured, a guarded path and no
credential at all, the gate answers 401. -/
theorem claim_C3_request_gate_witness :
    handle_auth (some emptyStrategy) bareRequest = .unauthorized :=
  (((claim_C3_request_gate emptyStrategy bareRequest).2.2 rfl).1).mpr ⟨rfl, rfl⟩
